import Mathlib

/-!
Shallow embedding, over the real numbers, of the NBA star-rating engine in
`src/app.py`: the deterministic score model (`weighted_score`), the derived
signals, the star-rating function (`StarRating.calculate`) and the
deterministic skeleton of `simulate_game`.  The three Monte-Carlo model
probabilities are random sampling outcomes; they enter `simulate_game` here
as explicit parameters, and every field the code computes from them
deterministically is embedded exactly.
-/

/-- Source constant `NBA_STD_DEV = 12.5` (line 5 of app.py). -/
noncomputable def NBA_STD_DEV : ℝ := 12.5

/-- Source constant `NB_R = 6.8` (line 6 of app.py). -/
noncomputable def NB_R : ℝ := 6.8

/-- Source constant `NUM_SIMULATIONS = 50000` (line 7 of app.py). -/
def NUM_SIMULATIONS : ℕ := 50000

/-- Python `round(x, 1)`: rounding to one decimal place, embedded as
rounding `10 * x` to the nearest integer and dividing by 10. -/
noncomputable def round1 (x : ℝ) : ℝ := ((round (10 * x) : ℤ) : ℝ) / 10

/-- `np.log1p(x) = log(1 + x)` (natural logarithm). -/
noncomputable def np_log1p (x : ℝ) : ℝ := Real.log (1 + x)

/-- `StarRating.calculate` from app.py lines 10-19:
`base = min(5, 0.5 + (prob/20)**1.5)`, a linear adjustment blend, then
`min(5, max(1, round(base + adjustments, 1)))`. -/
noncomputable def StarRating.calculate
    (prob mean_diff over_consistency volatility trend_strength : ℝ) : ℝ :=
  min 5 (max 1 (round1 (min 5 (0.5 + (prob / 20) ^ (1.5 : ℝ)) +
    (0.8 * mean_diff + 0.6 * over_consistency +
      0.4 * np_log1p volatility - 0.3 * trend_strength))))

/-- A team-statistics record: `{'avg': ..., 'allow': ..., 'over_rate': ...}`
as built at app.py lines 95-96. -/
structure TeamStats where
  avg : ℝ
  allow : ℝ
  over_rate : ℝ

/-- `weighted_score(data, opp_allow)` from app.py lines 22-26. -/
noncomputable def weighted_score (data : TeamStats) (opp_allow : ℝ) : ℝ :=
  (data.avg * 0.7 + opp_allow * 0.3) * (1 + data.over_rate * 0.05)

/-- `home_score = weighted_score(home, away['allow'])` (app.py line 28). -/
noncomputable def home_score (home away : TeamStats) : ℝ := weighted_score home away.allow

/-- `away_score = weighted_score(away, home['allow'])` (app.py line 29). -/
noncomputable def away_score (home away : TeamStats) : ℝ := weighted_score away home.allow

/-- `combined_avg = home_score + away_score` (app.py line 30). -/
noncomputable def combined_avg (home away : TeamStats) : ℝ :=
  home_score home away + away_score home away

/-- `final_prob = mc_prob * 0.4 + nb_prob * 0.4 + poisson_prob * 0.2`
(app.py line 46). -/
noncomputable def final_prob (mc_prob nb_prob poisson_prob : ℝ) : ℝ :=
  mc_prob * 0.4 + nb_prob * 0.4 + poisson_prob * 0.2

/-- `mean_diff = (combined_avg - target) / 5` (app.py line 48). -/
noncomputable def mean_diff (home away : TeamStats) (target : ℝ) : ℝ :=
  (combined_avg home away - target) / 5

/-- `over_consistency = home['over_rate'] + away['over_rate'] - 1`
(app.py line 49). -/
noncomputable def over_consistency (home away : TeamStats) : ℝ :=
  home.over_rate + away.over_rate - 1

/-- `np.std([a, b])`: the population standard deviation (denominator 2) of a
two-element list, as numpy computes it with the default `ddof=0`. -/
noncomputable def np_std (a b : ℝ) : ℝ :=
  Real.sqrt (((a - (a + b) / 2) ^ 2 + (b - (a + b) / 2) ^ 2) / 2)

/-- `volatility = np.std([home['avg'], home['allow']])` (app.py line 50):
only the home team's two values enter. -/
noncomputable def volatility (home : TeamStats) : ℝ := np_std home.avg home.allow

/-- `trend_strength = home['over_rate'] - away['over_rate']` (app.py line 51). -/
noncomputable def trend_strength (home away : TeamStats) : ℝ :=
  home.over_rate - away.over_rate

/-- The result dictionary returned by `simulate_game` (app.py lines 61-71). -/
structure SimulationResult where
  combined_avg : ℝ
  probability : ℝ
  stars : ℝ
  mc_prob : ℝ
  nb_prob : ℝ
  poisson_prob : ℝ
  home_score : ℝ
  away_score : ℝ
  recommendation : String

/-- `simulate_game(home, away, target)` from app.py lines 21-71.  The three
model probabilities `mc_prob`, `nb_prob`, `poisson_prob` are the outcomes of
the random sampling at lines 32-44, taken here as parameters; everything the
function computes from them is deterministic and embedded exactly, including
the recommendation string (`'大分'` is the "over" label, `'小分'` the
"under" label, line 70). -/
noncomputable def simulate_game (home away : TeamStats)
    (target mc_prob nb_prob poisson_prob : ℝ) : SimulationResult :=
  { combined_avg := combined_avg home away
    probability := final_prob mc_prob nb_prob poisson_prob
    stars := StarRating.calculate (final_prob mc_prob nb_prob poisson_prob)
      (mean_diff home away target) (over_consistency home away)
      (volatility home) (trend_strength home away)
    mc_prob := mc_prob
    nb_prob := nb_prob
    poisson_prob := poisson_prob
    home_score := home_score home away
    away_score := away_score home away
    recommendation :=
      if 50 ≤ final_prob mc_prob nb_prob poisson_prob then "大分" else "小分" }

/-- Modelled from the spec: the preconditions of §4.1 (`home.avg, home.allow,
away.avg, away.allow > 0`; `target > 0`; `over_rate` fields in `[0,1]`),
which the spec claims `simulate` validates.  No such check exists in
app.py; this predicate states what a valid input would be. -/
def validInputs (home away : TeamStats) (target : ℝ) : Prop :=
  0 < home.avg ∧ 0 < home.allow ∧ 0 < away.avg ∧ 0 < away.allow ∧
    0 < target ∧ 0 ≤ home.over_rate ∧ home.over_rate ≤ 1 ∧
    0 ≤ away.over_rate ∧ away.over_rate ≤ 1

/-- Spec §4.2 base term: `base = min(5, 0.5 + (prob/20)^1.5)`, written from
the spec's words for comparison with the source. -/
noncomputable def specBase (prob : ℝ) : ℝ := min 5 (0.5 + (prob / 20) ^ (1.5 : ℝ))

/-- Spec §4.2 adjustment term:
`0.8*meanDiff + 0.6*overConsistency + 0.4*ln(1+volatility) - 0.3*trendStrength`,
written from the spec's words for comparison with the source. -/
noncomputable def specAdjustment (meanDiff overConsistency vol trendStrength : ℝ) : ℝ :=
  0.8 * meanDiff + 0.6 * overConsistency +
    0.4 * Real.log (1 + vol) - 0.3 * trendStrength

/-- Spec §4.1 derived signal: the population standard deviation (divisor 2,
not 1) of the two-element list `[a, b]`, written from the spec's words for
comparison with the source's `np.std`. -/
noncomputable def populationStdDev2 (a b : ℝ) : ℝ :=
  Real.sqrt (((a - (a + b) / 2) ^ 2 + (b - (a + b) / 2) ^ 2) / 2)

/- ### Helper lemmas -/

/-- Rounding to one decimal is the identity on exact tenths. -/
theorem round1_tenth (x : ℝ) (n : ℤ) (h : 10 * x = (n : ℝ)) :
    round1 x = (n : ℝ) / 10 := by
  rw [round1, h, round_intCast]

/-- The two-element numpy standard deviation in closed form. -/
theorem np_std_eq_half_abs (a b : ℝ) : np_std a b = |a - b| / 2 := by
  rw [np_std,
    show ((a - (a + b) / 2) ^ 2 + (b - (a + b) / 2) ^ 2) / 2 = ((a - b) / 2) ^ 2 by ring,
    Real.sqrt_sq_eq_abs, abs_div, abs_two]

/-- The star rating always lands in `[1, 5]`. -/
theorem calculate_bounds (p md oc v ts : ℝ) :
    1 ≤ StarRating.calculate p md oc v ts ∧ StarRating.calculate p md oc v ts ≤ 5 := by
  unfold StarRating.calculate
  constructor
  · exact le_min (by norm_num) (le_max_left 1 _)
  · exact min_le_left _ _

/-- At `prob = 0` with a `-100` mean-diff signal the rating bottoms out at 1. -/
theorem calculate_extreme_low : StarRating.calculate 0 (-100) 0 0 0 = 1 := by
  unfold StarRating.calculate np_log1p
  rw [show ((0 : ℝ) / 20) = 0 by norm_num, Real.zero_rpow (by norm_num),
    show (1 : ℝ) + 0 = 1 by norm_num, Real.log_one,
    show min (5 : ℝ) (0.5 + 0) = 0.5 by norm_num,
    show (0.5 : ℝ) + (0.8 * (-100) + 0.6 * 0 + 0.4 * 0 - 0.3 * 0) = -79.5 by norm_num,
    round1_tenth (-79.5) (-795) (by norm_num)]
  norm_num

/-- At `prob = 100` with a `+100` mean-diff signal the rating tops out at 5. -/
theorem calculate_extreme_high : StarRating.calculate 100 100 0 0 0 = 5 := by
  have h5 : (5 : ℝ) ≤ (5 : ℝ) ^ (1.5 : ℝ) := by
    calc (5 : ℝ) = (5 : ℝ) ^ (1 : ℝ) := by rw [Real.rpow_one]
    _ ≤ (5 : ℝ) ^ (1.5 : ℝ) :=
        Real.rpow_le_rpow_of_exponent_le (by norm_num) (by norm_num)
  unfold StarRating.calculate np_log1p
  rw [show ((100 : ℝ) / 20) = 5 by norm_num,
    show (1 : ℝ) + 0 = 1 by norm_num, Real.log_one,
    min_eq_left (by linarith : (5 : ℝ) ≤ 0.5 + (5 : ℝ) ^ (1.5 : ℝ)),
    show (5 : ℝ) + (0.8 * 100 + 0.6 * 0 + 0.4 * 0 - 0.3 * 0) = 85 by norm_num,
    round1_tenth 85 850 (by norm_num)]
  norm_num

/- ### Claim theorems -/

/-- Claim C1 counterexample: the preconditions are violated
(`home.avg = 0` and `target = -5`), yet `simulate_game` does not fail with
an `InvalidInput` condition — it runs to completion and returns a
`SimulationResult` with fully determined fields. -/
theorem C1_counterexample :
    ¬ validInputs ⟨0, 108, 0.55⟩ ⟨112, 111, 0.5⟩ (-5) ∧
    (simulate_game ⟨0, 108, 0.55⟩ ⟨112, 111, 0.5⟩ (-5) 50 50 50).home_score
      = 34.21575 ∧
    (simulate_game ⟨0, 108, 0.55⟩ ⟨112, 111, 0.5⟩ (-5) 50 50 50).recommendation
      = "大分" := by
  refine ⟨fun h => ?_, ?_, ?_⟩
  · exact absurd h.1 (by norm_num)
  · norm_num [simulate_game, home_score, weighted_score]
  · rw [simulate_game]
    simp only
    rw [if_pos (by norm_num [final_prob])]

/-- Claim C1 (amended): `simulate_game` performs no input validation at all.
Even on inputs violating the spec's preconditions it proceeds exactly as on
valid ones, returning the `SimulationResult` built from the same formulas —
it never raises an `InvalidInput` condition. -/
theorem C1_no_validation (home away : TeamStats) (target mc nb po : ℝ)
    (h : ¬ validInputs home away target) :
    simulate_game home away target mc nb po =
      { combined_avg := combined_avg home away
        probability := final_prob mc nb po
        stars := StarRating.calculate (final_prob mc nb po)
          (mean_diff home away target) (over_consistency home away)
          (volatility home) (trend_strength home away)
        mc_prob := mc
        nb_prob := nb
        poisson_prob := po
        home_score := home_score home away
        away_score := away_score home away
        recommendation := if 50 ≤ final_prob mc nb po then "大分" else "小分" } :=
  rfl

/-- Witness for C1 (amended), at the invalid input `home.avg = 0`,
`target = -5`. -/
theorem C1_no_validation_witness :
    ¬ validInputs ⟨0, 108, 0.55⟩ ⟨112, 111, 0.5⟩ (-5) ∧
    simulate_game ⟨0, 108, 0.55⟩ ⟨112, 111, 0.5⟩ (-5) 50 50 50 =
      { combined_avg := combined_avg ⟨0, 108, 0.55⟩ ⟨112, 111, 0.5⟩
        probability := final_prob 50 50 50
        stars := StarRating.calculate (final_prob 50 50 50)
          (mean_diff ⟨0, 108, 0.55⟩ ⟨112, 111, 0.5⟩ (-5))
          (over_consistency ⟨0, 108, 0.55⟩ ⟨112, 111, 0.5⟩)
          (volatility ⟨0, 108, 0.55⟩)
          (trend_strength ⟨0, 108, 0.55⟩ ⟨112, 111, 0.5⟩)
        mc_prob := 50
        nb_prob := 50
        poisson_prob := 50
        home_score := home_score ⟨0, 108, 0.55⟩ ⟨112, 111, 0.5⟩
        away_score := away_score ⟨0, 108, 0.55⟩ ⟨112, 111, 0.5⟩
        recommendation := if 50 ≤ final_prob 50 50 50 then "大分" else "小分" } :=
  have hinv : ¬ validInputs ⟨0, 108, 0.55⟩ ⟨112, 111, 0.5⟩ (-5) :=
    fun h => absurd h.1 (by norm_num)
  ⟨hinv, C1_no_validation ⟨0, 108, 0.55⟩ ⟨112, 111, 0.5⟩ (-5) 50 50 50 hinv⟩

/-- Claim C2: `StarRating.calculate` returns exactly
`min(5, max(1, round(base + adjustment, 1)))` with
`base = min(5, 0.5 + (prob/20)^1.5)` and
`adjustment = 0.8*meanDiff + 0.6*overConsistency + 0.4*ln(1+volatility)
- 0.3*trendStrength`, the one-decimal rounding applied before the clamp
to `[1, 5]`. -/
theorem C2_star_rating_formula (prob meanDiff overConsistency vol trendStrength : ℝ)
    (hv : 0 ≤ vol) :
    StarRating.calculate prob meanDiff overConsistency vol trendStrength =
      min 5 (max 1 (round1
        (specBase prob + specAdjustment meanDiff overConsistency vol trendStrength))) :=
  rfl

/-- Witness for C2 at `prob = 50`, `volatility = 1`. -/
theorem C2_star_rating_formula_witness :
    (0 : ℝ) ≤ 1 ∧
    StarRating.calculate 50 0.2 0.05 1 0.05 =
      min 5 (max 1 (round1 (specBase 50 + specAdjustment 0.2 0.05 1 0.05))) :=
  ⟨by norm_num, C2_star_rating_formula 50 0.2 0.05 1 0.05 (by norm_num)⟩

/-- Claim C3: the expected team score is
`(T.avg*0.7 + oppAllow*0.3)*(1 + T.over_rate*0.05)`, applied for home with
away's `allow` and for away with home's `allow`; `combined_avg` is their
sum; and on the spec's example the values are `110.3*1.0275`,
`110.8*1.025`, and a combined average within 0.01 of 226.91. -/
theorem C3_weighted_scores (home away : TeamStats) :
    home_score home away
      = (home.avg * 0.7 + away.allow * 0.3) * (1 + home.over_rate * 0.05) ∧
    away_score home away
      = (away.avg * 0.7 + home.allow * 0.3) * (1 + away.over_rate * 0.05) ∧
    combined_avg home away = home_score home away + away_score home away ∧
    home_score ⟨110, 108, 0.55⟩ ⟨112, 111, 0.5⟩ = 110.3 * 1.0275 ∧
    away_score ⟨110, 108, 0.55⟩ ⟨112, 111, 0.5⟩ = 110.8 * 1.025 ∧
    |combined_avg ⟨110, 108, 0.55⟩ ⟨112, 111, 0.5⟩ - 226.91| < 0.01 := by
  refine ⟨rfl, rfl, rfl, ?_, ?_, ?_⟩ <;>
    norm_num [home_score, away_score, combined_avg, weighted_score, abs_lt]

/-- Claim C4: the fused probability is exactly
`0.4*monteCarloProb + 0.4*negBinomProb + 0.2*poissonProb`. -/
theorem C4_fusion (home away : TeamStats) (target mc nb po : ℝ) :
    (simulate_game home away target mc nb po).probability =
      0.4 * mc + 0.4 * nb + 0.2 * po := by
  show final_prob mc nb po = _
  rw [final_prob]; ring

/-- Claim C5: the recommendation is the over label (`'大分'` in the source)
iff the fused probability is `≥ 50`, and at exactly 50 (e.g. all three
model probabilities equal to 50) it resolves to over. -/
theorem C5_recommendation (home away : TeamStats) (target mc nb po : ℝ) :
    ((simulate_game home away target mc nb po).recommendation = "大分" ↔
      50 ≤ (simulate_game home away target mc nb po).probability) ∧
    (simulate_game ⟨110, 108, 0.55⟩ ⟨112, 111, 0.5⟩ 225.5 50 50 50).probability
      = 50 ∧
    (simulate_game ⟨110, 108, 0.55⟩ ⟨112, 111, 0.5⟩ 225.5 50 50 50).recommendation
      = "大分" := by
  refine ⟨?_, by norm_num [simulate_game, final_prob], ?_⟩
  · by_cases h : 50 ≤ final_prob mc nb po
    · rw [simulate_game]
      simp only [if_pos h]
      exact iff_of_true (by trivial) h
    · rw [simulate_game]
      simp only [if_neg h]
      constructor
      · intro hs
        exact absurd hs (by decide)
      · intro h50
        exact absurd h50 h
  · rw [simulate_game]
    simp only
    rw [if_pos (by norm_num [final_prob])]

/-- Claim C6: with each model probability in `[0,100]`, the fused
probability stays in `[0,100]`; the star rating always lies in `[1,5]`;
and the extreme inputs `(0, -100, 0, 0, 0)` and `(100, 100, 0, 0, 0)`
clamp to exactly 1 and 5. -/
theorem C6_bounds (home away : TeamStats) (target mc nb po : ℝ)
    (hmc0 : 0 ≤ mc) (hmc1 : mc ≤ 100) (hnb0 : 0 ≤ nb) (hnb1 : nb ≤ 100)
    (hpo0 : 0 ≤ po) (hpo1 : po ≤ 100) :
    (0 ≤ (simulate_game home away target mc nb po).probability ∧
      (simulate_game home away target mc nb po).probability ≤ 100) ∧
    (1 ≤ (simulate_game home away target mc nb po).stars ∧
      (simulate_game home away target mc nb po).stars ≤ 5) ∧
    StarRating.calculate 0 (-100) 0 0 0 = 1 ∧
    StarRating.calculate 100 100 0 0 0 = 5 := by
  refine ⟨?_, ?_, calculate_extreme_low, calculate_extreme_high⟩
  · show 0 ≤ final_prob mc nb po ∧ final_prob mc nb po ≤ 100
    rw [final_prob]
    constructor <;> linarith
  · exact calculate_bounds _ _ _ _ _

/-- Witness for C6 with all three model probabilities at 50. -/
theorem C6_bounds_witness :
    ((0 : ℝ) ≤ 50 ∧ (50 : ℝ) ≤ 100) ∧
    (0 ≤ (simulate_game ⟨110, 108, 0.55⟩ ⟨112, 111, 0.5⟩ 225.5 50 50 50).probability ∧
      (simulate_game ⟨110, 108, 0.55⟩ ⟨112, 111, 0.5⟩ 225.5 50 50 50).probability ≤ 100) ∧
    (1 ≤ (simulate_game ⟨110, 108, 0.55⟩ ⟨112, 111, 0.5⟩ 225.5 50 50 50).stars ∧
      (simulate_game ⟨110, 108, 0.55⟩ ⟨112, 111, 0.5⟩ 225.5 50 50 50).stars ≤ 5) ∧
    StarRating.calculate 0 (-100) 0 0 0 = 1 ∧
    StarRating.calculate 100 100 0 0 0 = 5 :=
  ⟨by norm_num,
    C6_bounds ⟨110, 108, 0.55⟩ ⟨112, 111, 0.5⟩ 225.5 50 50 50
      (by norm_num) (by norm_num) (by norm_num) (by norm_num)
      (by norm_num) (by norm_num)⟩

/-- Claim C8: the four derived signals are exactly
`meanDiff = (combinedAverage - target)/5`,
`overConsistency = home.over_rate + away.over_rate - 1`,
`volatility` = the population standard deviation (divisor 2) of the home
team's two values only, and
`trendStrength = home.over_rate - away.over_rate`; and the star rating the
simulation returns is `StarRating.calculate` applied to the fused
probability and exactly these signals. -/
theorem C8_signals (home away : TeamStats) (target mc nb po : ℝ) :
    mean_diff home away target = (combined_avg home away - target) / 5 ∧
    over_consistency home away = home.over_rate + away.over_rate - 1 ∧
    volatility home = populationStdDev2 home.avg home.allow ∧
    trend_strength home away = home.over_rate - away.over_rate ∧
    (simulate_game home away target mc nb po).stars =
      StarRating.calculate (final_prob mc nb po) (mean_diff home away target)
        (over_consistency home away) (volatility home)
        (trend_strength home away) :=
  ⟨rfl, rfl, rfl, rfl, rfl⟩

/-- Claim C9: holding `away` and `target` fixed, raising only `home.avg`
never decreases the home expected score or the combined average. -/
theorem C9_monotonicity (h1 h2 away : TeamStats) (target : ℝ)
    (ha : h1.allow = h2.allow) (hr : h1.over_rate = h2.over_rate)
    (hav : h1.avg ≤ h2.avg)
    (hv1 : validInputs h1 away target) (hv2 : validInputs h2 away target) :
    home_score h1 away ≤ home_score h2 away ∧
    combined_avg h1 away ≤ combined_avg h2 away := by
  obtain ⟨-, -, -, -, -, h2or, -, -, -⟩ := hv2
  have hfac : 0 ≤ 1 + h2.over_rate * 0.05 := by
    have := mul_nonneg h2or (by norm_num : (0 : ℝ) ≤ 0.05)
    linarith
  have hs : home_score h1 away ≤ home_score h2 away := by
    unfold home_score weighted_score
    rw [hr]
    exact mul_le_mul_of_nonneg_right (by linarith) hfac
  refine ⟨hs, ?_⟩
  unfold combined_avg
  have haw : away_score h1 away = away_score h2 away := by
    unfold away_score weighted_score
    rw [ha]
  rw [haw]
  linarith

/-- Witness for C9: bumping the home average from 110 to 111. -/
theorem C9_monotonicity_witness :
    validInputs ⟨110, 108, 0.55⟩ ⟨112, 111, 0.5⟩ 225.5 ∧
    validInputs ⟨111, 108, 0.55⟩ ⟨112, 111, 0.5⟩ 225.5 ∧
    (home_score ⟨110, 108, 0.55⟩ ⟨112, 111, 0.5⟩ ≤
      home_score ⟨111, 108, 0.55⟩ ⟨112, 111, 0.5⟩ ∧
    combined_avg ⟨110, 108, 0.55⟩ ⟨112, 111, 0.5⟩ ≤
      combined_avg ⟨111, 108, 0.55⟩ ⟨112, 111, 0.5⟩) :=
  ⟨by norm_num [validInputs], by norm_num [validInputs],
    C9_monotonicity ⟨110, 108, 0.55⟩ ⟨111, 108, 0.55⟩ ⟨112, 111, 0.5⟩ 225.5
      rfl rfl (by norm_num)
      (by norm_num [validInputs]) (by norm_num [validInputs])⟩

/-- Claim C10: swapping the `home` and `away` arguments of `simulate_game`
swaps the two expected scores and leaves the combined average unchanged;
the derived signals are nevertheless not symmetric under the swap
(`trend_strength` flips sign and `volatility` only ever reads the first
argument), shown on the spec's example teams. -/
theorem C10_swap (home away : TeamStats) (target mc nb po : ℝ) :
    (simulate_game away home target mc nb po).home_score
      = (simulate_game home away target mc nb po).away_score ∧
    (simulate_game away home target mc nb po).away_score
      = (simulate_game home away target mc nb po).home_score ∧
    (simulate_game away home target mc nb po).combined_avg
      = (simulate_game home away target mc nb po).combined_avg ∧
    trend_strength ⟨110, 108, 0.55⟩ ⟨112, 111, 0.5⟩
      ≠ trend_strength ⟨112, 111, 0.5⟩ ⟨110, 108, 0.55⟩ ∧
    volatility ⟨110, 108, 0.55⟩ ≠ volatility ⟨112, 111, 0.5⟩ := by
  refine ⟨rfl, rfl, ?_, ?_, ?_⟩
  · show combined_avg away home = combined_avg home away
    unfold combined_avg home_score away_score
    ring
  · norm_num [trend_strength]
  · norm_num [volatility, np_std_eq_half_abs, abs_of_nonneg]
